import Mathlib

/-!
Shallow embedding of the reconciliation core of the `ceph.automation`
Ansible collection: the modules `plugins/modules/ceph_orch_apply.py`
(service-spec reconciliation) and `plugins/modules/ceph_config.py`
(single config-key reconciliation).

Parsed YAML/JSON data is modelled by the recursive type `Value`; Python
mappings become association lists in insertion order (keys are unique in
data coming from YAML/JSON parsers).  Python `==`/`!=` on such data is
modelled by `pyEq` (key-order-irrelevant for mappings, order-significant
for sequences, and Python's `bool`-is-an-`int` numeric crossing).
External process invocations are modelled by environments that
predetermine each command's (exit code, stdout, stderr); each embedded
entry point additionally returns the trace of external commands it
actually issued, so "command X was (never) run" is a statement about the
trace.
-/

namespace CephAutomation

/-- A value produced by parsing YAML (`yaml.safe_load`) or JSON
(`json.loads`): scalar string, integer, boolean, null, sequence, or
mapping.  A mapping is an association list in insertion order; parsers
never produce duplicate keys. -/
inductive Value where
  | str (s : String)
  | int (n : Int)
  | bool (b : Bool)
  | null
  | list (xs : List Value)
  | dict (entries : List (String × Value))

/-- A parsed mapping: what the Python sources annotate as `Dict`. -/
abbrev Dict := List (String × Value)

/-- Python dictionary read access `d[k]` / membership `k in d` for a parsed
mapping: the value at the first matching key, if any. -/
def lookup (k : String) : Dict → Option Value
  | [] => none
  | (k2, v) :: rest => if k2 = k then some v else lookup k rest

/-- Python dictionary assignment `d[k] = v`: replace the value at an existing
key, otherwise append the new binding (insertion order is preserved). -/
def dictSet (d : Dict) (k : String) (v : Value) : Dict :=
  match d with
  | [] => [(k, v)]
  | (k2, v2) :: rest => if k2 = k then (k, v) :: rest else (k2, v2) :: dictSet rest k v

mutual

/-- Python `==` on parsed YAML/JSON values, as used by `current[key] != value`
in `change_required`: scalars compare by value (with Python's `bool` being an
`int`, so `True == 1`), sequences pointwise in order, mappings by key set with
values compared recursively (key order irrelevant). -/
def pyEq : Value → Value → Bool
  | Value.str a, Value.str b => a == b
  | Value.int a, Value.int b => a == b
  | Value.bool a, Value.bool b => a == b
  | Value.bool a, Value.int b => (if a then (1 : Int) else 0) == b
  | Value.int a, Value.bool b => a == (if b then (1 : Int) else 0)
  | Value.null, Value.null => true
  | Value.list a, Value.list b => pyEqList a b
  | Value.dict a, Value.dict b => a.length == b.length && pyEqEntries a b
  | _, _ => false
termination_by a b => sizeOf a + sizeOf b

/-- Pointwise Python `==` on two sequences (order-significant). -/
def pyEqList : List Value → List Value → Bool
  | [], [] => true
  | x :: xs, y :: ys => pyEq x y && pyEqList xs ys
  | _, _ => false
termination_by a b => sizeOf a + sizeOf b

/-- Every entry of the first mapping has a matching entry in the second
(together with equal lengths this is Python dict equality, keys being
unique). -/
def pyEqEntries : List (String × Value) → List (String × Value) → Bool
  | [], _ => true
  | (k, v) :: rest, b => pyEqFind k v b && pyEqEntries rest b
termination_by a b => sizeOf a + sizeOf b

/-- Whether the mapping binds key `k` to a value Python-equal to `v`. -/
def pyEqFind : String → Value → List (String × Value) → Bool
  | _, _, [] => false
  | k, v, (k2, v2) :: rest => if k2 = k then pyEq v v2 else pyEqFind k v rest
termination_by _ v b => sizeOf v + sizeOf b

end

/-- The body of the `for key, value in expected.items()` loop of
`change_required` (`ceph_orch_apply.py`), for one field: if the key exists in
`current`, change is required when the values are Python-unequal; if it is
absent, change is required unless the key is the write-once `location`
exception. -/
def fieldForcesChange (current : Dict) (k : String) (v : Value) : Bool :=
  match lookup k current with
  | some cv => !(pyEq cv v)
  | none => k != "location"

/-- The `for key, value in expected.items()` loop of `change_required`
(`ceph_orch_apply.py` lines 165-175): returns `true` as soon as a field of
`expected` forces a change, `false` when the loop completes. -/
def specFieldsLoop (current : Dict) : List (String × Value) → Bool
  | [] => false
  | (k, v) :: rest =>
    match lookup k current with
    | some cv => if pyEq cv v then specFieldsLoop current rest else true
    | none => if k = "location" then specFieldsLoop current rest else true

/-- `change_required(current, expected)` of `ceph_orch_apply.py` (lines
156-175).  An empty `current` means change is always required.  Otherwise
`expected['service_type']` is read (`none` models the `KeyError` when it is
absent); when it equals `'host'` the key `service_type` is assigned into
`current` in place (the mutation is modelled by returning the updated
mapping alongside the verdict), then the field loop runs. -/
def change_required (current expected : Dict) : Option (Dict × Bool) :=
  if current.isEmpty then some (current, true)
  else
    match lookup "service_type" expected with
    | none => none
    | some st =>
      let current2 := if pyEq st (Value.str "host")
        then dictSet current "service_type" (Value.str "host")
        else current
      some (current2, specFieldsLoop current2 expected)

/-- Modelled from the spec: the `ClusterTarget` of §3 — which cluster and
which binary/image the invocation addresses.  `clusterId` is the `fsid`
parameter, `containerImage` the `image` parameter, `useAlternateRuntime`
the `docker` parameter. -/
structure ClusterTarget where
  clusterId : Option String
  containerImage : Option String
  useAlternateRuntime : Bool

/-- Modelled from the spec: the Command Builder of §4.1 (the function
`build_base_cmd` of `module_utils/ceph_common.py`, which is not under
`src/`) — the invariant command head: binary selector plus the
runtime-override and container-image flags when supplied. -/
def build_base_cmd (t : ClusterTarget) : List String :=
  ["cephadm"]
    ++ (if t.useAlternateRuntime then ["--docker"] else [])
    ++ (match t.containerImage with
        | some img => ["--image", img]
        | none => [])

/-- Modelled from the spec: the Command Builder of §4.1 (the function
`build_base_cmd_shell` of `module_utils/ceph_common.py`, not under `src/`) —
the prefix of every shelled cluster command, carrying the `--fsid` flag when
a cluster id was supplied. -/
def build_base_cmd_shell (t : ClusterTarget) : List String :=
  build_base_cmd t ++ ["shell"]
    ++ (match t.clusterId with
        | some fsid => ["--fsid", fsid]
        | none => [])

/-- Modelled from the spec: the Command Builder of §4.1 (the function
`build_base_cmd_orch` of `module_utils/ceph_common.py`, not under `src/`) —
the prefix of every orchestrator command, per the §6 read contract
`["ceph","orch","ls",...]`. -/
def build_base_cmd_orch (t : ClusterTarget) : List String :=
  build_base_cmd_shell t ++ ["ceph", "orch"]

/-- One entry of the parsed `ceph config dump --format json` output, as read
by `get_current_value`: the JSON fields `section`, `name` and `value`. -/
structure ConfigRecord where
  sectionName : String
  name : String
  value : String

/-- `get_current_value(who, option, config_dump)` of `ceph_config.py` (lines
135-139): the value of the first dump record whose `section` is `who` and
whose `name` is `option`, else `None`. -/
def get_current_value (who option : String) : List ConfigRecord → Option String
  | [] => none
  | c :: rest =>
    if c.sectionName = who ∧ c.name = option then some c.value
    else get_current_value who option rest

/-- Python `str()` of an optional string, as in `str(value)` /
`str(current_value)` of `ceph_config.py` line 170: `None` stringifies to
`"None"`. -/
def pyStrOpt : Option String → String
  | none => "None"
  | some s => s

/-- Python `str.lower()` as used on line 170 of `ceph_config.py` (character
by character case folding). -/
def pyLower (s : String) : String := ⟨s.data.map Char.toLower⟩

/-- The structured outcome assembled for the caller.  Modelled from the spec:
`exit_module` of `module_utils/ceph_common.py` (not under `src/`) emits the §6
output contract `changed, cmd, rc, stdout, stderr, start, end, delta`; the
wall-clock fields are owned by the boundary layer and omitted here. -/
structure Outcome where
  changed : Bool
  cmd : List String
  rc : Int
  out : String
  err : String

/-- How one invocation of the config module ends: a fatal abort from the
read of the baseline (modelled from the spec: `fatal` of
`module_utils/ceph_common.py`, not under `src/`, aborts the whole invocation
with a message), a structured `fail_json` failure from a write command
(carrying message, command and exit code), or a normal outcome. -/
inductive ConfigResult where
  | fatalError (msg : String)
  | failJson (msg : String) (cmd : List String) (rc : Int)
  | ok (outcome : Outcome)

/-- The predetermined results of the external commands the config module may
run: the `config dump` read (with `dumpRecords` standing for
`json.loads` of its stdout), the `config set` write and the `config rm`
write. -/
structure ConfigEnv where
  dumpRc : Int
  dumpOut : String
  dumpErr : String
  dumpRecords : List ConfigRecord
  setRc : Int
  setOut : String
  setErr : String
  rmRc : Int
  rmOut : String
  rmErr : String

/-- The read command issued by `get_config_dump` (`ceph_config.py` lines
125-132). -/
def get_config_dump_cmd (t : ClusterTarget) : List String :=
  build_base_cmd_shell t ++ ["ceph", "config", "dump", "--format", "json"]

/-- The write command issued by `set_option` (`ceph_config.py` lines
105-114). -/
def set_option_cmd (t : ClusterTarget) (who option value : String) : List String :=
  build_base_cmd_shell t ++ ["ceph", "config", "set", who, option, value]

/-- The write command issued by `remove_option` (`ceph_config.py` lines
115-121). -/
def remove_option_cmd (t : ClusterTarget) (who option : String) : List String :=
  build_base_cmd_shell t ++ ["ceph", "config", "rm", who, option]

/-- `main()` of `ceph_config.py` (lines 142-203), as a function of the module
parameters, the check-mode flag and the external-command environment.  The
second component is the trace of external commands actually issued, in
order.  The flow mirrors the source: run `get_config_dump` (aborting fatally
on a non-zero exit), look up the current value, then branch on `action`:
`set` skips when `str(value).lower() == str(current_value).lower()`, else in
check mode reports a `would be set to` message, else runs `set_option`,
turning a non-zero exit into a `fail_json`; `remove` skips when no current
value exists, else in check mode reports a `would be removed` message, else
runs `remove_option`, turning a non-zero exit into a `fail_json`; any other
action is the read-only `get`. -/
def ceph_config_main (t : ClusterTarget) (who option : String) (value : Option String)
    (action : String) (checkMode : Bool) (env : ConfigEnv) :
    ConfigResult × List (List String) :=
  let dumpCmd := get_config_dump_cmd t
  if env.dumpRc ≠ 0 then
    (ConfigResult.fatalError
      ("Can't get current configuration via `ceph config dump`.Error:\n" ++ env.dumpErr),
     [dumpCmd])
  else
    let current_value := get_current_value who option env.dumpRecords
    if action = "set" then
      if pyLower (pyStrOpt value) = pyLower (pyStrOpt current_value) then
        (ConfigResult.ok
          ⟨false, dumpCmd, env.dumpRc,
           "who=" ++ who ++ " option=" ++ option ++ " value=" ++ pyStrOpt value
             ++ " already set. Skipping.",
           env.dumpErr⟩,
         [dumpCmd])
      else if checkMode then
        (ConfigResult.ok
          ⟨true, dumpCmd, env.dumpRc,
           "who=" ++ who ++ " option=" ++ option ++ " would be set to " ++ pyStrOpt value,
           env.dumpErr⟩,
         [dumpCmd])
      else
        let setCmd := set_option_cmd t who option (pyStrOpt value)
        if env.setRc ≠ 0 then
          (ConfigResult.failJson env.setErr setCmd env.setRc, [dumpCmd, setCmd])
        else
          (ConfigResult.ok ⟨true, setCmd, env.setRc, env.setOut.trim, env.setErr⟩,
           [dumpCmd, setCmd])
    else if action = "remove" then
      match current_value with
      | none =>
        (ConfigResult.ok
          ⟨false, dumpCmd, env.dumpRc,
           "who=" ++ who ++ " option=" ++ option ++ " already absent. Skipping.",
           env.dumpErr⟩,
         [dumpCmd])
      | some _ =>
        if checkMode then
          (ConfigResult.ok
            ⟨true, dumpCmd, env.dumpRc,
             "who=" ++ who ++ " option=" ++ option ++ " would be removed",
             env.dumpErr⟩,
           [dumpCmd])
        else
          let rmCmd := remove_option_cmd t who option
          if env.rmRc ≠ 0 then
            (ConfigResult.failJson env.rmErr rmCmd env.rmRc, [dumpCmd, rmCmd])
          else
            (ConfigResult.ok ⟨true, rmCmd, env.rmRc, env.rmOut.trim, env.rmErr⟩,
             [dumpCmd, rmCmd])
    else
      match current_value with
      | none =>
        (ConfigResult.ok
          ⟨false, dumpCmd, env.dumpRc, "",
           "No value found for who=" ++ who ++ " option=" ++ option⟩,
         [dumpCmd])
      | some v =>
        (ConfigResult.ok ⟨false, dumpCmd, env.dumpRc, v, env.dumpErr⟩, [dumpCmd])

/-- Python `str()` of a parsed YAML value, as exercised by the `"%s.%s"`
formatting of `retrieve_current_spec` (in every real spec the formatted
fields are scalar strings; the container renderings here are abbreviated and
no theorem depends on them). -/
def pyStrValue : Value → String
  | Value.str s => s
  | Value.int n => toString n
  | Value.bool b => if b then "True" else "False"
  | Value.null => "None"
  | Value.list _ => "[...]"
  | Value.dict _ => "\x7b...\x7d"

/-- Python truthiness of a parsed value, as in `if not current` at the top of
`change_required`: `None`, `False`, zero and empty strings/containers are
falsy. -/
def pyTruthy : Value → Bool
  | Value.str s => s != ""
  | Value.int n => n != 0
  | Value.bool b => b
  | Value.null => false
  | Value.list xs => !xs.isEmpty
  | Value.dict d => !d.isEmpty

/-- The shape of the value `retrieve_current_spec` receives back from
`module.run_command` and tests with `isinstance(out, str)`: either the usual
`(rc, stdout, stderr)` triple or a plain string.  Per the §6
command-execution boundary the boundary only ever returns the triple. -/
inductive RunReturn where
  | triple (rc : Int) (stdout stderr : String)
  | text (s : String)

/-- The tail of `retrieve_current_spec` (`ceph_orch_apply.py` lines 136-141):
`out = module.run_command(cmd)`, then `if isinstance(out, str): return {}`,
`else: return yaml.safe_load(out[1])`, with the YAML parse passed in as
`parse`. -/
def retrieve_current_spec_result (ret : RunReturn) (parse : String → Value) : Value :=
  match ret with
  | RunReturn.text _ => Value.dict []
  | RunReturn.triple _ stdout _ => parse stdout

/-- Modelled from the spec: `yaml.safe_load` (an external library) applied to
the sentinel textual response — a bare YAML scalar line such as
`No services reported` — yields exactly that string, not a mapping (§4.3 and
§9: sentinel textual responses instead of structured data). -/
def yaml_safe_load_scalar (s : String) : Value := Value.str s

/-- The predetermined results of the external commands the service-spec
module may run: the listing read issued by `retrieve_current_spec` (with
`currentParsed` standing for `yaml.safe_load` of its stdout, as the mapping
the source annotates the current state to be) and the `orch apply` write. -/
structure OrchEnv where
  lsRc : Int
  lsOut : String
  lsErr : String
  currentParsed : Dict
  applyRc : Int
  applyOut : String
  applyErr : String

/-- The write command issued by `apply_spec` (`ceph_orch_apply.py` lines
146-147). -/
def apply_spec_cmd (t : ClusterTarget) : List String :=
  build_base_cmd_orch t ++ ["apply", "-i", "-"]

/-- `apply_spec` (`ceph_orch_apply.py` lines 144-153): run `orch apply` with
the serialized spec on stdin; a non-zero exit raises `RuntimeError(err)`
(modelled as `Except.error`), otherwise the `(rc, cmd, out, err)` tuple is
returned. -/
def apply_spec (t : ClusterTarget) (env : OrchEnv) :
    Except String (Int × List String × String × String) :=
  if env.applyRc ≠ 0 then Except.error env.applyErr
  else Except.ok (env.applyRc, apply_spec_cmd t, env.applyOut, env.applyErr)

/-- The query command built by `retrieve_current_spec` (`ceph_orch_apply.py`
lines 120-135): service types in the fixed id-required subset are queried as
`orch ls <type> <type>.<id>`, other types as `orch ls <type> <type>`, and the
host pseudo-service as `orch host ls --host-pattern <hostname>`;
`Except.error k` models the Python `KeyError` on the missing key `k`. -/
def retrieve_current_spec_cmd (t : ClusterTarget) (expected : Dict) :
    Except String (List String) :=
  match lookup "service_type" expected with
  | none => Except.error "service_type"
  | some stv =>
    let service := pyStrValue stv
    match (if service ∈ ["iscsi", "nvmeof", "mds", "nfs", "osd", "rgw", "container", "ingress"]
      then match lookup "service_id" expected with
        | none => Except.error "service_id"
        | some sid => Except.ok (service ++ "." ++ pyStrValue sid)
      else Except.ok service) with
    | Except.error k => Except.error k
    | Except.ok srvName =>
      if service ≠ "host" then
        Except.ok (build_base_cmd_orch t ++ ["ls", service, srvName, "--format=yaml"])
      else
        match lookup "hostname" expected with
        | none => Except.error "hostname"
        | some hn =>
          Except.ok (build_base_cmd_orch t
            ++ ["host", "ls", "--host-pattern", pyStrValue hn, "--format=yaml"])

/-- How one invocation of the service-spec module ends: a `KeyError` while
reading a field of the expected spec, the `RuntimeError` raised by
`apply_spec` on a non-zero exit (both abort the invocation), or a normal
outcome. -/
inductive OrchResult where
  | keyError (k : String)
  | runtimeError (err : String)
  | ok (outcome : Outcome)

/-- `run_module()` of `ceph_orch_apply.py` (lines 178-235), as a function of
the parsed expected spec, the check-mode flag and the external-command
environment; the second component is the trace of external commands issued.
In check mode the module exits at once with `changed = false` and an empty
command, before any read.  Otherwise it issues the listing query of
`retrieve_current_spec` (whose parsed stdout is `env.currentParsed`; the
`isinstance(out, str)` branch never fires, see
`retrieve_current_spec_sentinel_misparsed`), evaluates `change_required`,
and either applies the spec through `apply_spec` or exits unchanged. -/
def run_module (t : ClusterTarget) (expected : Dict) (checkMode : Bool)
    (env : OrchEnv) : OrchResult × List (List String) :=
  if checkMode then
    (OrchResult.ok ⟨false, [], 0, "", ""⟩, [])
  else
    match retrieve_current_spec_cmd t expected with
    | Except.error k => (OrchResult.keyError k, [])
    | Except.ok lsCmd =>
      match change_required env.currentParsed expected with
      | none => (OrchResult.keyError "service_type", [lsCmd])
      | some (_, needed) =>
        if needed then
          match apply_spec t env with
          | Except.error e => (OrchResult.runtimeError e, [lsCmd, apply_spec_cmd t])
          | Except.ok (rc, cmd, out, err) =>
            (OrchResult.ok ⟨true, cmd, rc, out, err⟩, [lsCmd, apply_spec_cmd t])
        else
          (OrchResult.ok ⟨false, [], 0, "", ""⟩, [lsCmd])

theorem specFieldsLoop_eq_any (current : Dict) (l : List (String × Value)) :
    specFieldsLoop current l = l.any (fun kv => fieldForcesChange current kv.1 kv.2) := by
  induction l with
  | nil => rfl
  | cons hd tl ih =>
    obtain ⟨k, v⟩ := hd
    rw [List.any_cons, ← ih]
    simp only [specFieldsLoop, fieldForcesChange]
    cases h : lookup k current with
    | some cv =>
      cases hpe : pyEq cv v <;> simp [hpe]
    | none =>
      by_cases hk : k = "location" <;> simp [hk, bne_iff_ne]

theorem fieldForcesChange_iff (current : Dict) (k : String) (v : Value) :
    fieldForcesChange current k v = true ↔
      (∃ cv, lookup k current = some cv ∧ pyEq cv v = false) ∨
      (lookup k current = none ∧ k ≠ "location") := by
  unfold fieldForcesChange
  cases h : lookup k current with
  | some cv => simp [h]
  | none => simp [h]

theorem lookup_dictSet_self (d : Dict) (k : String) (v : Value) :
    lookup k (dictSet d k v) = some v := by
  induction d with
  | nil => simp [dictSet, lookup]
  | cons hd tl ih =>
    obtain ⟨k2, v2⟩ := hd
    by_cases h : k2 = k
    · subst h
      simp [dictSet, lookup]
    · simp [dictSet, lookup, h, ih]

theorem lookup_dictSet_ne (d : Dict) (k k2 : String) (v : Value) (h : k2 ≠ k) :
    lookup k2 (dictSet d k v) = lookup k2 d := by
  have h2 : k ≠ k2 := Ne.symm h
  induction d with
  | nil => simp [dictSet, lookup, h2]
  | cons hd tl ih =>
    obtain ⟨k3, v3⟩ := hd
    by_cases h3 : k3 = k
    · subst h3
      simp [dictSet, lookup, h2]
    · simp [dictSet, lookup, h3, ih]

theorem pyEq_str_host (st : Value) :
    pyEq st (Value.str "host") = true ↔ st = Value.str "host" := by
  cases st <;> simp [pyEq]

/-- C1: for a non-empty current service state and an expected spec carrying its
mandatory `service_type` field, `change_required` returns `true` exactly when
some field of the expected spec either exists in the (host-rule-adjusted)
current state with a Python-unequal value, or is absent from it and is not
named `location`; the verdict is determined by the expected spec's fields alone
(fields of the current state not mentioned by the expected spec do not appear
in the characterisation); and for an empty current state the verdict is `true`
regardless of the expected spec's contents. -/
theorem change_required_characterisation :
    (∀ expected : Dict, change_required [] expected = some ([], true)) ∧
    (∀ (current expected : Dict) (st : Value), current ≠ [] →
      lookup "service_type" expected = some st →
      ∃ current2 verdict,
        change_required current expected = some (current2, verdict) ∧
        current2 = (if pyEq st (Value.str "host")
          then dictSet current "service_type" (Value.str "host") else current) ∧
        (verdict = true ↔ ∃ k v, (k, v) ∈ expected ∧
          ((∃ cv, lookup k current2 = some cv ∧ pyEq cv v = false) ∨
           (lookup k current2 = none ∧ k ≠ "location")))) := by
  constructor
  · intro expected
    rfl
  · intro current expected st hne hst
    have he : current.isEmpty = false := by
      cases current with
      | nil => exact absurd rfl hne
      | cons a l => rfl
    have hcr : change_required current expected =
        some (if pyEq st (Value.str "host")
                then dictSet current "service_type" (Value.str "host") else current,
              specFieldsLoop
                (if pyEq st (Value.str "host")
                  then dictSet current "service_type" (Value.str "host") else current)
                expected) := by
      simp only [change_required, he, hst, Bool.false_eq_true, if_false]
    refine ⟨_, _, hcr, rfl, ?_⟩
    rw [specFieldsLoop_eq_any, List.any_eq_true]
    constructor
    · rintro ⟨⟨k, v⟩, hmem, hf⟩
      exact ⟨k, v, hmem, (fieldForcesChange_iff _ _ _).mp hf⟩
    · rintro ⟨k, v, hmem, hf⟩
      exact ⟨(k, v), hmem, (fieldForcesChange_iff _ _ _).mpr hf⟩

/-- Concrete instance of `change_required_characterisation`: the empty current
state, and the current state `{service_type: nfs, count: 1}` against the
expected spec `{service_type: nfs, count: 2}`. -/
theorem change_required_characterisation_witness :
    (change_required [] [("service_type", Value.str "nfs")] = some ([], true)) ∧
    ∃ current2 verdict,
      change_required [("service_type", Value.str "nfs"), ("count", Value.int 1)]
          [("service_type", Value.str "nfs"), ("count", Value.int 2)] =
        some (current2, verdict) ∧
      current2 = (if pyEq (Value.str "nfs") (Value.str "host")
        then dictSet [("service_type", Value.str "nfs"), ("count", Value.int 1)]
          "service_type" (Value.str "host")
        else [("service_type", Value.str "nfs"), ("count", Value.int 1)]) ∧
      (verdict = true ↔ ∃ k v,
        (k, v) ∈ ([("service_type", Value.str "nfs"), ("count", Value.int 2)] : Dict) ∧
        ((∃ cv, lookup k current2 = some cv ∧ pyEq cv v = false) ∨
         (lookup k current2 = none ∧ k ≠ "location"))) :=
  ⟨change_required_characterisation.1 _,
   change_required_characterisation.2 _ _ _ (List.cons_ne_nil _ _) rfl⟩

/-- C10: when the current state is non-empty and the expected spec's
`service_type` equals `'host'`, `change_required` writes
`service_type = 'host'` into the caller's current mapping (modelled by the
mapping it hands back: the key now reads `'host'` and every other key is
untouched); for a non-`'host'` `service_type`, and likewise for an empty
current state, the mapping is handed back unchanged. -/
theorem change_required_mutation :
    (∀ (current expected : Dict) (st : Value), current ≠ [] →
        lookup "service_type" expected = some st → st = Value.str "host" →
        ∃ r, change_required current expected = some r ∧
          lookup "service_type" r.1 = some (Value.str "host") ∧
          ∀ k, k ≠ "service_type" → lookup k r.1 = lookup k current) ∧
    (∀ (current expected : Dict) (st : Value), current ≠ [] →
        lookup "service_type" expected = some st → st ≠ Value.str "host" →
        ∃ r, change_required current expected = some r ∧ r.1 = current) ∧
    (∀ expected : Dict, change_required [] expected = some ([], true)) := by
  refine ⟨?_, ?_, fun expected => rfl⟩
  · intro current expected st hne hst hhost
    subst hhost
    have he : current.isEmpty = false := by
      cases current with
      | nil => exact absurd rfl hne
      | cons a l => rfl
    have hpe : pyEq (Value.str "host") (Value.str "host") = true := by
      simp [pyEq]
    have hcr : change_required current expected =
        some (dictSet current "service_type" (Value.str "host"),
              specFieldsLoop (dictSet current "service_type" (Value.str "host")) expected) := by
      simp only [change_required, he, hst, Bool.false_eq_true, if_false, hpe, if_true]
    exact ⟨_, hcr, lookup_dictSet_self _ _ _,
      fun k hk => lookup_dictSet_ne _ _ _ _ hk⟩
  · intro current expected st hne hst hhost
    have he : current.isEmpty = false := by
      cases current with
      | nil => exact absurd rfl hne
      | cons a l => rfl
    have hpe : pyEq st (Value.str "host") = false := by
      rcases hb : pyEq st (Value.str "host") with _ | _
      · rfl
      · exact absurd ((pyEq_str_host st).mp hb) hhost
    have hcr : change_required current expected =
        some (current, specFieldsLoop current expected) := by
      simp only [change_required, he, hst, Bool.false_eq_true, if_false, hpe]
    exact ⟨_, hcr, rfl⟩

/-- Concrete instance of `change_required_mutation`: the current host listing
`{hostname: ceph-node-00}` against the expected spec
`{service_type: host, hostname: ceph-node-00}`, the same current state against
`{service_type: nfs}`, and an empty current state. -/
theorem change_required_mutation_witness :
    (∃ r, change_required [("hostname", Value.str "ceph-node-00")]
        [("service_type", Value.str "host"), ("hostname", Value.str "ceph-node-00")] = some r ∧
      lookup "service_type" r.1 = some (Value.str "host") ∧
      ∀ k, k ≠ "service_type" →
        lookup k r.1 = lookup k [("hostname", Value.str "ceph-node-00")]) ∧
    (∃ r, change_required [("hostname", Value.str "ceph-node-00")]
        [("service_type", Value.str "nfs")] = some r ∧
      r.1 = [("hostname", Value.str "ceph-node-00")]) ∧
    change_required [] [("service_type", Value.str "host")] = some ([], true) :=
  ⟨change_required_mutation.1 _ _ _ (List.cons_ne_nil _ _) rfl rfl,
   change_required_mutation.2.1 _ _ _ (List.cons_ne_nil _ _) rfl
     (fun h => Value.noConfusion h (fun h2 => by simp at h2)),
   change_required_mutation.2.2 _⟩

theorem set_option_cmd_ne_dump (t : ClusterTarget) (who option value : String) :
    set_option_cmd t who option value ≠ get_config_dump_cmd t := by
  intro h
  have h2 := List.append_cancel_left (h : build_base_cmd_shell t ++ _ = build_base_cmd_shell t ++ _)
  simp at h2

theorem remove_option_cmd_ne_dump (t : ClusterTarget) (who option : String) :
    remove_option_cmd t who option ≠ get_config_dump_cmd t := by
  intro h
  have h2 := List.append_cancel_left (h : build_base_cmd_shell t ++ _ = build_base_cmd_shell t ++ _)
  simp at h2

/-- C3: for action `set`, the mutating `config set` command is skipped and
`changed = false` is reported precisely when `str(value).lower()` equals
`str(current_value).lower()` for the value found in the config dump; when the
two differ case-insensitively and check mode is off, the `set` command is
issued and, when it exits 0, `changed = true` is reported. -/
theorem config_set_equivalence (t : ClusterTarget) (who option : String)
    (value : Option String) (checkMode : Bool) (env : ConfigEnv)
    (hdump : env.dumpRc = 0) :
    ((set_option_cmd t who option (pyStrOpt value) ∉
        (ceph_config_main t who option value "set" checkMode env).2 ∧
      ∃ o, (ceph_config_main t who option value "set" checkMode env).1 =
          ConfigResult.ok o ∧ o.changed = false) ↔
      pyLower (pyStrOpt value) =
        pyLower (pyStrOpt (get_current_value who option env.dumpRecords))) ∧
    (pyLower (pyStrOpt value) ≠
        pyLower (pyStrOpt (get_current_value who option env.dumpRecords)) →
      checkMode = false →
      set_option_cmd t who option (pyStrOpt value) ∈
        (ceph_config_main t who option value "set" checkMode env).2 ∧
      (env.setRc = 0 →
        (ceph_config_main t who option value "set" checkMode env).1 =
          ConfigResult.ok ⟨true, set_option_cmd t who option (pyStrOpt value),
            env.setRc, env.setOut.trim, env.setErr⟩)) := by
  have h0 : ¬ env.dumpRc ≠ 0 := by simp [hdump]
  by_cases heq : pyLower (pyStrOpt value) =
      pyLower (pyStrOpt (get_current_value who option env.dumpRecords))
  · have hmain : ceph_config_main t who option value "set" checkMode env =
        (ConfigResult.ok ⟨false, get_config_dump_cmd t, env.dumpRc,
           "who=" ++ who ++ " option=" ++ option ++ " value=" ++ pyStrOpt value
             ++ " already set. Skipping.", env.dumpErr⟩,
         [get_config_dump_cmd t]) := by
      simp only [ceph_config_main, if_neg h0, if_pos rfl, if_pos heq, if_true]
    refine ⟨?_, fun hne => absurd heq hne⟩
    rw [hmain]
    simp only [List.mem_singleton]
    constructor
    · intro _
      exact heq
    · intro _
      exact ⟨set_option_cmd_ne_dump t who option (pyStrOpt value), _, rfl, rfl⟩
  · cases checkMode with
    | true =>
      have hmain : ceph_config_main t who option value "set" true env =
          (ConfigResult.ok ⟨true, get_config_dump_cmd t, env.dumpRc,
             "who=" ++ who ++ " option=" ++ option ++ " would be set to " ++ pyStrOpt value,
             env.dumpErr⟩,
           [get_config_dump_cmd t]) := by
        simp only [ceph_config_main, if_neg h0, if_pos rfl, if_neg heq, if_pos rfl, if_true]
      refine ⟨?_, fun _ hcm => nomatch hcm⟩
      rw [hmain]
      constructor
      · rintro ⟨_, o, hok, hch⟩
        cases hok
        simp at hch
      · intro heq2
        exact absurd heq2 heq
    | false =>
      by_cases hrc : env.setRc ≠ 0
      · have hmain : ceph_config_main t who option value "set" false env =
            (ConfigResult.failJson env.setErr (set_option_cmd t who option (pyStrOpt value))
               env.setRc,
             [get_config_dump_cmd t, set_option_cmd t who option (pyStrOpt value)]) := by
          simp only [ceph_config_main, if_neg h0, if_pos rfl, if_neg heq,
            Bool.false_eq_true, if_false, if_pos hrc, if_true]
        constructor
        · rw [hmain]
          constructor
          · rintro ⟨hnm, _⟩
            exact absurd (by simp) hnm
          · intro heq2
            exact absurd heq2 heq
        · intro _ _
          rw [hmain]
          exact ⟨by simp, fun hrc0 => absurd hrc0 hrc⟩
      · have hmain : ceph_config_main t who option value "set" false env =
            (ConfigResult.ok ⟨true, set_option_cmd t who option (pyStrOpt value),
               env.setRc, env.setOut.trim, env.setErr⟩,
             [get_config_dump_cmd t, set_option_cmd t who option (pyStrOpt value)]) := by
          simp only [ceph_config_main, if_neg h0, if_pos rfl, if_neg heq,
            Bool.false_eq_true, if_false, if_neg hrc, if_true]
        constructor
        · rw [hmain]
          constructor
          · rintro ⟨hnm, _⟩
            exact absurd (by simp) hnm
          · intro heq2
            exact absurd heq2 heq
        · intro _ _
          rw [hmain]
          exact ⟨by simp, fun _ => rfl⟩

/-- Concrete instance of `config_set_equivalence`: setting
`osd_memory_target = 5368709120` for `osd.0` when the dump holds no matching
record (so the values differ and the set command must run). -/
theorem config_set_equivalence_witness :
    ((set_option_cmd ⟨none, none, false⟩ "osd.0" "osd_memory_target"
        (pyStrOpt (some "5368709120")) ∉
        (ceph_config_main ⟨none, none, false⟩ "osd.0" "osd_memory_target"
          (some "5368709120") "set" false
          ⟨0, "[]", "", [], 0, "", "", 0, "", ""⟩).2 ∧
      ∃ o, (ceph_config_main ⟨none, none, false⟩ "osd.0" "osd_memory_target"
            (some "5368709120") "set" false
            ⟨0, "[]", "", [], 0, "", "", 0, "", ""⟩).1 =
          ConfigResult.ok o ∧ o.changed = false) ↔
      pyLower (pyStrOpt (some "5368709120")) =
        pyLower (pyStrOpt (get_current_value "osd.0" "osd_memory_target"
          ([] : List ConfigRecord)))) ∧
    (pyLower (pyStrOpt (some "5368709120")) ≠
        pyLower (pyStrOpt (get_current_value "osd.0" "osd_memory_target"
          ([] : List ConfigRecord))) →
      false = false →
      set_option_cmd ⟨none, none, false⟩ "osd.0" "osd_memory_target"
        (pyStrOpt (some "5368709120")) ∈
        (ceph_config_main ⟨none, none, false⟩ "osd.0" "osd_memory_target"
          (some "5368709120") "set" false
          ⟨0, "[]", "", [], 0, "", "", 0, "", ""⟩).2 ∧
      (Int.ofNat 0 = 0 →
        (ceph_config_main ⟨none, none, false⟩ "osd.0" "osd_memory_target"
            (some "5368709120") "set" false
            ⟨0, "[]", "", [], 0, "", "", 0, "", ""⟩).1 =
          ConfigResult.ok ⟨true, set_option_cmd ⟨none, none, false⟩ "osd.0"
            "osd_memory_target" (pyStrOpt (some "5368709120")),
            Int.ofNat 0, "".trim, ""⟩)) :=
  config_set_equivalence ⟨none, none, false⟩ "osd.0" "osd_memory_target"
    (some "5368709120") false ⟨0, "[]", "", [], 0, "", "", 0, "", ""⟩ rfl

/-- C5 is refuted at this input: removing `osd_memory_target` for scope `osd`
when the dump holds no matching record does report `changed = false`, but the
outcome's `cmd` is the config-dump read command, not `[]`. -/
theorem config_remove_absent_cmd_counterexample :
    ∃ o, (ceph_config_main ⟨none, none, false⟩ "osd" "osd_memory_target" none "remove" false
        ⟨0, "[]", "", [], 0, "", "", 0, "", ""⟩).1 = ConfigResult.ok o ∧
      o.changed = false ∧ o.cmd ≠ [] := by
  refine ⟨_, rfl, rfl, ?_⟩
  decide

/-- C5 (amended): for action `remove` with no record matching `(who, option)`
in the config dump, the `config rm` command is never issued and the outcome
reports `changed = false` — with `cmd` equal to the config-dump read command
(the last command run), not `[]`. -/
theorem config_remove_absent (t : ClusterTarget) (who option : String)
    (value : Option String) (checkMode : Bool) (env : ConfigEnv)
    (hdump : env.dumpRc = 0)
    (habs : get_current_value who option env.dumpRecords = none) :
    ceph_config_main t who option value "remove" checkMode env =
      (ConfigResult.ok ⟨false, get_config_dump_cmd t, env.dumpRc,
         "who=" ++ who ++ " option=" ++ option ++ " already absent. Skipping.",
         env.dumpErr⟩,
       [get_config_dump_cmd t]) ∧
    remove_option_cmd t who option ∉
      (ceph_config_main t who option value "remove" checkMode env).2 := by
  have h0 : ¬ env.dumpRc ≠ 0 := by simp [hdump]
  have hrs : ¬ ("remove" : String) = "set" := by decide
  have hmain : ceph_config_main t who option value "remove" checkMode env =
      (ConfigResult.ok ⟨false, get_config_dump_cmd t, env.dumpRc,
         "who=" ++ who ++ " option=" ++ option ++ " already absent. Skipping.",
         env.dumpErr⟩,
       [get_config_dump_cmd t]) := by
    simp only [ceph_config_main, if_neg h0, habs, if_true, if_neg hrs]
  refine ⟨hmain, ?_⟩
  rw [hmain]
  simp only [List.mem_singleton]
  exact remove_option_cmd_ne_dump t who option

/-- Concrete instance of `config_remove_absent`: removing `osd_memory_target`
for scope `osd` when the dump holds no matching record. -/
theorem config_remove_absent_witness :
    ceph_config_main ⟨none, none, false⟩ "osd" "osd_memory_target" none "remove" false
        ⟨0, "[]", "", [], 0, "", "", 0, "", ""⟩ =
      (ConfigResult.ok ⟨false, get_config_dump_cmd ⟨none, none, false⟩, Int.ofNat 0,
         "who=" ++ "osd" ++ " option=" ++ "osd_memory_target" ++ " already absent. Skipping.",
         ""⟩,
       [get_config_dump_cmd ⟨none, none, false⟩]) ∧
    remove_option_cmd ⟨none, none, false⟩ "osd" "osd_memory_target" ∉
      (ceph_config_main ⟨none, none, false⟩ "osd" "osd_memory_target" none "remove" false
        ⟨0, "[]", "", [], 0, "", "", 0, "", ""⟩).2 :=
  config_remove_absent ⟨none, none, false⟩ "osd" "osd_memory_target" none false
    ⟨0, "[]", "", [], 0, "", "", 0, "", ""⟩ rfl rfl

/-- C7: in check mode the config module never issues a mutating command (for
any action the trace is exactly the config-dump read), the equivalence
evaluation still runs against the freshly fetched dump and the reported
`changed` equals its verdict, and when a change would be required the output
is the synthesized `would be set to X` / `would be removed` message. -/
theorem config_check_mode (t : ClusterTarget) (who option : String)
    (value : Option String) (env : ConfigEnv) (hdump : env.dumpRc = 0) :
    (∀ action, (ceph_config_main t who option value action true env).2 =
      [get_config_dump_cmd t]) ∧
    (∃ o, (ceph_config_main t who option value "set" true env).1 =
        ConfigResult.ok o ∧
      o.changed = !(pyLower (pyStrOpt value) ==
        pyLower (pyStrOpt (get_current_value who option env.dumpRecords))) ∧
      (pyLower (pyStrOpt value) ≠
          pyLower (pyStrOpt (get_current_value who option env.dumpRecords)) →
        o.out = "who=" ++ who ++ " option=" ++ option ++ " would be set to "
          ++ pyStrOpt value)) ∧
    (∃ o, (ceph_config_main t who option value "remove" true env).1 =
        ConfigResult.ok o ∧
      o.changed = (get_current_value who option env.dumpRecords).isSome ∧
      (get_current_value who option env.dumpRecords ≠ none →
        o.out = "who=" ++ who ++ " option=" ++ option ++ " would be removed")) := by
  have h0 : ¬ env.dumpRc ≠ 0 := by simp [hdump]
  refine ⟨?_, ?_, ?_⟩
  · intro action
    simp only [ceph_config_main, if_neg h0]
    by_cases hset : action = "set"
    · rw [if_pos hset]
      by_cases heq : pyLower (pyStrOpt value) =
          pyLower (pyStrOpt (get_current_value who option env.dumpRecords))
      · rw [if_pos heq]
      · rw [if_neg heq]
        simp
    · rw [if_neg hset]
      by_cases hrm : action = "remove"
      · rw [if_pos hrm]
        cases habs : get_current_value who option env.dumpRecords with
        | none => rfl
        | some v => rfl
      · rw [if_neg hrm]
        cases habs : get_current_value who option env.dumpRecords with
        | none => rfl
        | some v => rfl
  · by_cases heq : pyLower (pyStrOpt value) =
        pyLower (pyStrOpt (get_current_value who option env.dumpRecords))
    · have hmain : (ceph_config_main t who option value "set" true env).1 =
          ConfigResult.ok ⟨false, get_config_dump_cmd t, env.dumpRc,
            "who=" ++ who ++ " option=" ++ option ++ " value=" ++ pyStrOpt value
              ++ " already set. Skipping.", env.dumpErr⟩ := by
        simp only [ceph_config_main, if_neg h0, if_pos heq, if_true]
      refine ⟨_, hmain, ?_, fun hne => absurd heq hne⟩
      simp [heq]
    · have hmain : (ceph_config_main t who option value "set" true env).1 =
          ConfigResult.ok ⟨true, get_config_dump_cmd t, env.dumpRc,
            "who=" ++ who ++ " option=" ++ option ++ " would be set to " ++ pyStrOpt value,
            env.dumpErr⟩ := by
        simp only [ceph_config_main, if_neg h0, if_neg heq, if_true]
      refine ⟨_, hmain, ?_, fun _ => rfl⟩
      simp [heq]
  · cases habs : get_current_value who option env.dumpRecords with
    | none =>
      have hrs : ¬ ("remove" : String) = "set" := by decide
      have hmain : (ceph_config_main t who option value "remove" true env).1 =
          ConfigResult.ok ⟨false, get_config_dump_cmd t, env.dumpRc,
            "who=" ++ who ++ " option=" ++ option ++ " already absent. Skipping.",
            env.dumpErr⟩ := by
        simp only [ceph_config_main, if_neg h0, habs, if_true, if_neg hrs]
      exact ⟨_, hmain, rfl, fun hne => absurd rfl hne⟩
    | some v =>
      have hrs : ¬ ("remove" : String) = "set" := by decide
      have hmain : (ceph_config_main t who option value "remove" true env).1 =
          ConfigResult.ok ⟨true, get_config_dump_cmd t, env.dumpRc,
            "who=" ++ who ++ " option=" ++ option ++ " would be removed",
            env.dumpErr⟩ := by
        simp only [ceph_config_main, if_neg h0, habs, if_true, if_neg hrs]
      exact ⟨_, hmain, rfl, fun _ => rfl⟩

/-- Concrete instance of `config_check_mode`: a dump holding
`global/osd_pool_default_size = 3` while `2` is desired. -/
theorem config_check_mode_witness :
    (∀ action, (ceph_config_main ⟨none, none, false⟩ "global" "osd_pool_default_size"
        (some "2") action true
        ⟨0, "x", "", [⟨"global", "osd_pool_default_size", "3"⟩], 0, "", "", 0, "", ""⟩).2 =
      [get_config_dump_cmd ⟨none, none, false⟩]) ∧
    (∃ o, (ceph_config_main ⟨none, none, false⟩ "global" "osd_pool_default_size"
          (some "2") "set" true
          ⟨0, "x", "", [⟨"global", "osd_pool_default_size", "3"⟩], 0, "", "", 0, "", ""⟩).1 =
        ConfigResult.ok o ∧
      o.changed = !(pyLower (pyStrOpt (some "2")) ==
        pyLower (pyStrOpt (get_current_value "global" "osd_pool_default_size"
          [⟨"global", "osd_pool_default_size", "3"⟩]))) ∧
      (pyLower (pyStrOpt (some "2")) ≠
          pyLower (pyStrOpt (get_current_value "global" "osd_pool_default_size"
            [⟨"global", "osd_pool_default_size", "3"⟩])) →
        o.out = "who=" ++ "global" ++ " option=" ++ "osd_pool_default_size"
          ++ " would be set to " ++ pyStrOpt (some "2"))) ∧
    (∃ o, (ceph_config_main ⟨none, none, false⟩ "global" "osd_pool_default_size"
          (some "2") "remove" true
          ⟨0, "x", "", [⟨"global", "osd_pool_default_size", "3"⟩], 0, "", "", 0, "", ""⟩).1 =
        ConfigResult.ok o ∧
      o.changed = (get_current_value "global" "osd_pool_default_size"
        [⟨"global", "osd_pool_default_size", "3"⟩]).isSome ∧
      (get_current_value "global" "osd_pool_default_size"
          [⟨"global", "osd_pool_default_size", "3"⟩] ≠ none →
        o.out = "who=" ++ "global" ++ " option=" ++ "osd_pool_default_size"
          ++ " would be removed")) :=
  config_check_mode ⟨none, none, false⟩ "global" "osd_pool_default_size" (some "2")
    ⟨0, "x", "", [⟨"global", "osd_pool_default_size", "3"⟩], 0, "", "", 0, "", ""⟩ rfl

/-- C8: when the `ceph config dump` read exits non-zero, the whole config
invocation aborts at once with a fatal error carrying the captured stderr;
the trace shows the read as the only command issued, so no comparison or
mutation is ever attempted, whatever the action, value or check-mode flag. -/
theorem config_dump_failure_aborts (t : ClusterTarget) (who option : String)
    (value : Option String) (action : String) (checkMode : Bool) (env : ConfigEnv)
    (h : env.dumpRc ≠ 0) :
    ceph_config_main t who option value action checkMode env =
      (ConfigResult.fatalError
        ("Can't get current configuration via `ceph config dump`.Error:\n" ++ env.dumpErr),
       [get_config_dump_cmd t]) := by
  simp only [ceph_config_main, if_pos h]

/-- Concrete instance of `config_dump_failure_aborts`: the dump exits 1 with
stderr `dump failed`. -/
theorem config_dump_failure_aborts_witness :
    ceph_config_main ⟨none, none, false⟩ "osd" "osd_memory_target" (some "1") "set" false
        ⟨1, "", "dump failed", [], 0, "", "", 0, "", ""⟩ =
      (ConfigResult.fatalError
        ("Can't get current configuration via `ceph config dump`.Error:\n" ++ "dump failed"),
       [get_config_dump_cmd ⟨none, none, false⟩]) :=
  config_dump_failure_aborts ⟨none, none, false⟩ "osd" "osd_memory_target" (some "1")
    "set" false ⟨1, "", "dump failed", [], 0, "", "", 0, "", ""⟩ (by decide)

/-- C9: for action `set` with no record matching `(who, option)` in the dump,
a desired value whose lowercased string form is `none` is indistinguishable
from the absent state — `str(None).lower()` is also `none` — so the module
reports `changed = false` and never issues the set command. -/
theorem config_set_none_absent (t : ClusterTarget) (who option : String)
    (value : Option String) (checkMode : Bool) (env : ConfigEnv)
    (hdump : env.dumpRc = 0)
    (habs : get_current_value who option env.dumpRecords = none)
    (hval : pyLower (pyStrOpt value) = "none") :
    (∃ o, (ceph_config_main t who option value "set" checkMode env).1 =
        ConfigResult.ok o ∧ o.changed = false) ∧
    (ceph_config_main t who option value "set" checkMode env).2 =
      [get_config_dump_cmd t] := by
  have h0 : ¬ env.dumpRc ≠ 0 := by simp [hdump]
  have heq : pyLower (pyStrOpt value) =
      pyLower (pyStrOpt (get_current_value who option env.dumpRecords)) := by
    rw [habs, hval]
    decide
  have hmain : ceph_config_main t who option value "set" checkMode env =
      (ConfigResult.ok ⟨false, get_config_dump_cmd t, env.dumpRc,
         "who=" ++ who ++ " option=" ++ option ++ " value=" ++ pyStrOpt value
           ++ " already set. Skipping.", env.dumpErr⟩,
       [get_config_dump_cmd t]) := by
    simp only [ceph_config_main, if_neg h0, if_pos rfl, if_pos heq, if_true]
  rw [hmain]
  exact ⟨⟨_, rfl, rfl⟩, rfl⟩

/-- Concrete instance of `config_set_none_absent`: desired value `None`
(stringified by the boundary layer) for an option with no current record. -/
theorem config_set_none_absent_witness :
    (∃ o, (ceph_config_main ⟨none, none, false⟩ "osd" "rbd_qos_schedule" (some "None")
        "set" false ⟨0, "[]", "", [], 0, "", "", 0, "", ""⟩).1 =
        ConfigResult.ok o ∧ o.changed = false) ∧
    (ceph_config_main ⟨none, none, false⟩ "osd" "rbd_qos_schedule" (some "None")
        "set" false ⟨0, "[]", "", [], 0, "", "", 0, "", ""⟩).2 =
      [get_config_dump_cmd ⟨none, none, false⟩] :=
  config_set_none_absent ⟨none, none, false⟩ "osd" "rbd_qos_schedule" (some "None")
    false ⟨0, "[]", "", [], 0, "", "", 0, "", ""⟩ rfl rfl (by decide)

/-- C2 fails on the code: in `retrieve_current_spec` the sentinel detection
tests `isinstance(out, str)` on the value returned by `module.run_command`,
but per the §6 command-execution boundary that value is always an
`(exitCode, stdout, stderr)` triple, never a plain string; so when the
control plane answers `No services reported` the function YAML-parses that
sentinel and returns the scalar string — a truthy, non-mapping value —
instead of the empty state `{}` that the claim (and the code's own comment)
promise, which only the dead `isinstance` branch would produce. -/
theorem retrieve_current_spec_sentinel_misparsed :
    ∀ (rc : Int) (stderr : String),
      retrieve_current_spec_result (RunReturn.triple rc "No services reported" stderr)
          yaml_safe_load_scalar = Value.str "No services reported" ∧
      Value.str "No services reported" ≠ Value.dict [] ∧
      pyTruthy (Value.str "No services reported") = true ∧
      retrieve_current_spec_result (RunReturn.text "No services reported")
          yaml_safe_load_scalar = Value.dict [] := by
  intro rc stderr
  refine ⟨rfl, ?_, by decide, rfl⟩
  intro h
  exact Value.noConfusion h

/-- C6: in check mode the service-spec module short-circuits before any state
fetch or comparison — for every environment, so independently of anything a
read could return, it reports `changed = false` with an empty executed
command, and its trace of issued external commands is empty: no read and no
write. -/
theorem orch_check_mode_short_circuit (t : ClusterTarget) (expected : Dict)
    (env : OrchEnv) :
    run_module t expected true env = (OrchResult.ok ⟨false, [], 0, "", ""⟩, []) :=
  rfl

/-- C4: a non-zero exit of the `orch apply` write raises, aborting the whole
invocation (`apply_spec` yields the `RuntimeError`, which `run_module`
propagates), whereas non-zero exits of the `config set` and `config rm`
writes are surfaced as structured `fail_json` failures carrying the stderr,
the command and the exit code. -/
theorem write_failure_asymmetry :
    (∀ (t : ClusterTarget) (env : OrchEnv), env.applyRc ≠ 0 →
      apply_spec t env = Except.error env.applyErr) ∧
    (∀ (t : ClusterTarget) (expected : Dict) (env : OrchEnv) (lsCmd : List String),
      retrieve_current_spec_cmd t expected = Except.ok lsCmd →
      (change_required env.currentParsed expected).map Prod.snd = some true →
      env.applyRc ≠ 0 →
      run_module t expected false env =
        (OrchResult.runtimeError env.applyErr, [lsCmd, apply_spec_cmd t])) ∧
    (∀ (t : ClusterTarget) (who option : String) (value : Option String) (env : ConfigEnv),
      env.dumpRc = 0 →
      pyLower (pyStrOpt value) ≠
        pyLower (pyStrOpt (get_current_value who option env.dumpRecords)) →
      env.setRc ≠ 0 →
      (ceph_config_main t who option value "set" false env).1 =
        ConfigResult.failJson env.setErr
          (set_option_cmd t who option (pyStrOpt value)) env.setRc) ∧
    (∀ (t : ClusterTarget) (who option : String) (value : Option String)
        (cur : String) (env : ConfigEnv),
      env.dumpRc = 0 →
      get_current_value who option env.dumpRecords = some cur →
      env.rmRc ≠ 0 →
      (ceph_config_main t who option value "remove" false env).1 =
        ConfigResult.failJson env.rmErr (remove_option_cmd t who option) env.rmRc) := by
  refine ⟨?_, ?_, ?_, ?_⟩
  · intro t env h
    simp only [apply_spec, if_pos h]
  · intro t expected env lsCmd hls hreq hrc
    cases hcr : change_required env.currentParsed expected with
    | none =>
      rw [hcr] at hreq
      simp at hreq
    | some p =>
      obtain ⟨c2, b⟩ := p
      rw [hcr] at hreq
      simp only [Option.map_some', Option.some.injEq] at hreq
      subst hreq
      simp only [run_module, Bool.false_eq_true, if_false, hls, hcr, if_true,
        apply_spec, if_pos hrc]
  · intro t who option value env hdump hne hrc
    have h0 : ¬ env.dumpRc ≠ 0 := by simp [hdump]
    simp only [ceph_config_main, if_neg h0, if_pos rfl, if_neg hne,
      Bool.false_eq_true, if_false, if_pos hrc, if_true]
  · intro t who option value cur env hdump hcur hrc
    have h0 : ¬ env.dumpRc ≠ 0 := by simp [hdump]
    have hrs : ¬ ("remove" : String) = "set" := by decide
    simp only [ceph_config_main, if_neg h0, if_neg hrs, hcur,
      Bool.false_eq_true, if_false, if_pos hrc, if_true]

/-- Concrete instance of `write_failure_asymmetry`: an `orch apply` of an
`mgr` spec exiting 1 (raised, both in `apply_spec` and through
`run_module`), a `config set` exiting 1 and a `config rm` exiting 1 (both
reported as structured failures). -/
theorem write_failure_asymmetry_witness :
    apply_spec ⟨none, none, false⟩ ⟨0, "", "", [], 1, "", "apply failed"⟩ =
      Except.error "apply failed" ∧
    run_module ⟨none, none, false⟩ [("service_type", Value.str "mgr")] false
        ⟨0, "", "", [], 1, "", "apply failed"⟩ =
      (OrchResult.runtimeError "apply failed",
       [build_base_cmd_orch ⟨none, none, false⟩ ++ ["ls", "mgr", "mgr", "--format=yaml"],
        apply_spec_cmd ⟨none, none, false⟩]) ∧
    (ceph_config_main ⟨none, none, false⟩ "osd.0" "osd_memory_target" (some "1") "set" false
        ⟨0, "[]", "", [], 1, "", "set failed", 0, "", ""⟩).1 =
      ConfigResult.failJson "set failed"
        (set_option_cmd ⟨none, none, false⟩ "osd.0" "osd_memory_target" "1") 1 ∧
    (ceph_config_main ⟨none, none, false⟩ "osd" "osd_memory_target" none "remove" false
        ⟨0, "x", "", [⟨"osd", "osd_memory_target", "123"⟩], 0, "", "", 1, "", "rm failed"⟩).1 =
      ConfigResult.failJson "rm failed"
        (remove_option_cmd ⟨none, none, false⟩ "osd" "osd_memory_target") 1 :=
  ⟨write_failure_asymmetry.1 _ _ (by decide),
   write_failure_asymmetry.2.1 _ _ _ _ rfl rfl (by decide),
   write_failure_asymmetry.2.2.1 _ _ _ _ _ rfl (by decide) (by decide),
   write_failure_asymmetry.2.2.2 _ _ _ _ "123" _ rfl rfl (by decide)⟩

end CephAutomation
